import Mathlib

/-
Shallow embedding of src/drug_approval_tracker.py.

Modelling conventions:
- Python strings handled by the extractor are modelled as `List Char`
  (Python slicing `s[:n]` is per-character, i.e. `List.take n`).
- External collaborators (HTTP fetch via requests, the fitz PDF parser,
  the BeautifulSoup HTML text, the SerpAPI search, the Gemini model) are
  modelled by explicit outcome types: each call site receives the
  collaborator's behaviour as data and the embedded function reproduces
  exactly what the Python control flow does with it.
- `try/except Exception` blocks become pattern matches on those outcome
  types: the "raises" constructor is routed to the code of the `except`
  branch.
- Python floats appear in the source only as the literal `0.0`
  (confidence_score of the fallback record) and the sleep durations;
  `0.0` is modelled as the integer 0, sleeps are modelled as trace
  events (their duration is irrelevant to every claim).
- `datetime.now().isoformat()` is modelled by a timestamp string passed
  in as a parameter.
-/

set_option autoImplicit false

namespace DAT

/-- Config dataclass (src lines 91-100); only the fields the embedded
    code reads are kept. `config = Config()` uses the defaults. -/
structure Config where
  max_results : Nat := 10
  max_retries : Nat := 3
  request_timeout : Nat := 30
  max_text_length : Nat := 8000

/-- The module-level `config = Config()` instance. -/
def config : Config := {}

/-- JSON-ish scalar values appearing in records: the source stores
    strings, the integer-valued float 0.0 and the int search position. -/
inductive JVal where
  | str (s : String)
  | num (n : Int)
  deriving DecidableEq

/-- A Python dict with string keys, as an insertion-ordered association
    list (keys unique by construction of the operations below). -/
def JRecord : Type := List (String × JVal)

instance : DecidableEq JRecord := by
  unfold JRecord
  infer_instance

/-- Python dict read `r.get(k)`: value at the first occurrence of `k`. -/
def getVal (k : String) : JRecord → Option JVal
  | [] => none
  | (k0, v) :: r => if k = k0 then some v else getVal k r

/-- Python dict assignment `r[k] = v`: overwrite the existing entry for
    `k` in place, or append a new entry at the end (insertion order). -/
def setKey : JRecord → String → JVal → JRecord
  | [], k, v => [(k, v)]
  | (k0, v0) :: r, k, v => if k0 = k then (k, v) :: r else (k0, v0) :: setKey r k v

/-- Prefix test on character lists (`pat` begins `l`). -/
def leadsWith : List Char → List Char → Bool
  | [], _ => true
  | _ :: _, [] => false
  | p :: ps, c :: cs => p = c && leadsWith ps cs

/-- Python substring test `pat in l`. -/
def hasSub (pat : List Char) : List Char → Bool
  | [] => leadsWith pat []
  | c :: cs => leadsWith pat (c :: cs) || hasSub pat cs

/-- How fitz interprets the fetched body bytes: either `fitz.open`
    or a `page.get_text()` call raises, or the document yields this
    list of per-page texts, in page order (src lines 173-175). -/
inductive PdfParse where
  | fail
  | pages (ps : List (List Char))
  deriving DecidableEq

/-- The outcome of `requests.get` for one URL (src line 158):
    `status` is the HTTP status code; `contentType` is the declared
    content-type header (`none` when the header is absent);
    `pdfParse` is what fitz does with `response.content`;
    `soupText` is `BeautifulSoup(response.text).get_text()` after the
    script/style strip, or `none` when parsing raises. -/
structure HttpResponse where
  status : Nat
  contentType : Option (List Char)
  pdfParse : PdfParse
  soupText : Option (List Char)

/-- `requests.get` either raises (connection error, timeout, ...) or
    returns a response. -/
inductive FetchOutcome where
  | netError
  | ok (r : HttpResponse)

/-- On-disk events of the temporary PDF file (src lines 169-176):
    `create` = `NamedTemporaryFile(delete=False)` + write,
    `unlink` = `os.unlink(tmp_path)`. -/
inductive FileEvent where
  | create
  | unlink
  deriving DecidableEq

/-- ContentExtractor._extract_pdf_content (src lines 167-180), paired
    with its temp-file trace. The bytes are written to a temporary file
    (`create`); if the fitz parse raises, control jumps to the `except`
    branch which returns "" WITHOUT reaching `os.unlink` (the unlink on
    src line 176 sits after the parse, inside the `try`); on success the
    page texts are concatenated in order, the file is unlinked, and the
    text is truncated to `max_text_length`. -/
def extract_pdf_with_trace (cfg : Config) : PdfParse → List Char × List FileEvent
  | .fail => ([], [FileEvent.create])
  | .pages ps => ((ps.flatten).take cfg.max_text_length, [FileEvent.create, FileEvent.unlink])

/-- The text `_extract_pdf_content` returns. -/
def extract_pdf_content (cfg : Config) (p : PdfParse) : List Char :=
  (extract_pdf_with_trace cfg p).1

/-- Python `str.strip()`: drop whitespace at both ends. -/
def stripWS (l : List Char) : List Char :=
  ((l.dropWhile Char.isWhitespace).reverse.dropWhile Char.isWhitespace).reverse

/-- Python `str.splitlines()`, modelled as splitting on the newline
    character. -/
def splitLines : List Char → List (List Char)
  | [] => [[]]
  | c :: cs =>
    if c = '\n' then [] :: splitLines cs
    else
      match splitLines cs with
      | [] => [[c]]
      | l :: ls => (c :: l) :: ls

/-- `' '.join(line.strip() for line in text.splitlines() if line.strip())`
    (src line 186). -/
def normalizeText (t : List Char) : List Char :=
  List.intercalate [' '] (((splitLines t).map stripWS).filter (fun l => !l.isEmpty))

/-- ContentExtractor._extract_html_content (src lines 182-190): if the
    soup step raises, the `except` branch returns ""; otherwise the text
    is whitespace-normalized and truncated to `max_text_length`. -/
def extract_html_content (cfg : Config) : Option (List Char) → List Char
  | none => []
  | some t => (normalizeText t).take cfg.max_text_length

/-- The literal 'pdf' of the content-type test on src line 160. -/
def pdfPat : List Char := "pdf".toList

/-- ContentExtractor.extract_content (src lines 155-165): a raised
    fetch error is caught and yields ""; `raise_for_status()` raises
    (caught, "") exactly when 400 <= status < 600; otherwise the branch
    is chosen by `'pdf' in response.headers.get('content-type', '')`
    (missing header defaults to `''`, hence the HTML branch). -/
def extract_content (cfg : Config) : FetchOutcome → List Char
  | .netError => []
  | .ok r =>
    if 400 ≤ r.status ∧ r.status < 600 then []
    else if hasSub pdfPat (r.contentType.getD []) then
      extract_pdf_content cfg r.pdfParse
    else
      extract_html_content cfg r.soupText

/-- External-call / pacing-sleep events of the pipeline (the
    `time.sleep` calls on src lines 143 and 223 and the calls they
    pace). -/
inductive CallEvent where
  | searchCall
  | searchSleep
  | genCall
  | genSleep
  deriving DecidableEq

/-- The outcome of `self.model.generate_content(prompt)` followed by
    the parse on src lines 224-226:
    `raises` - the Gemini call itself raises;
    `parseFail` - the call returns `text`, but `json.loads` raises on
    it (or it parses to a non-dict, so that the subscript assignment
    on src line 226 raises); both TypeErrors land in the same
    `except Exception` branch;
    `parsed` - the stripped response parses to the JSON object `obj`. -/
inductive GenOutcome where
  | raises
  | parseFail (text : String)
  | parsed (obj : JRecord)

/-- The fallback record built in the `except` branch of
    AIAnalyzer.analyze_content (src lines 230-243), with the analysis
    timestamp `ts`. -/
def fallback_record (url ts : String) : JRecord :=
  [("drug_name", JVal.str "Analysis failed"),
   ("sponsor_company", JVal.str "Not specified"),
   ("approval_date", JVal.str "Not specified"),
   ("indication", JVal.str "Not specified"),
   ("drug_type", JVal.str "Not specified"),
   ("regulatory_action", JVal.str "Not specified"),
   ("approval_status", JVal.str "Not specified"),
   ("therapeutic_area", JVal.str "Not specified"),
   ("source_agency", JVal.str "Not specified"),
   ("source_url", JVal.str url),
   ("confidence_score", JVal.num 0),
   ("extraction_timestamp", JVal.str ts)]

/-- AIAnalyzer.analyze_content (src lines 199-243), paired with its
    call/sleep trace. If `generate_content` raises, the
    `time.sleep(gemini_delay)` on src line 223 is never reached
    (control jumps to `except`); if the call returns, the sleep runs
    before the parse is attempted. On a successful parse the code only
    adds `extraction_timestamp` to the parsed dict (src line 226) and
    returns it unchanged otherwise; on any exception it returns the
    fallback record. -/
def analyze_with_trace (url ts : String) : GenOutcome → JRecord × List CallEvent
  | .raises => (fallback_record url ts, [CallEvent.genCall])
  | .parseFail _ => (fallback_record url ts, [CallEvent.genCall, CallEvent.genSleep])
  | .parsed obj =>
    (setKey obj "extraction_timestamp" (JVal.str ts),
     [CallEvent.genCall, CallEvent.genSleep])

/-- The record `analyze_content` returns. -/
def analyze_content (url ts : String) (g : GenOutcome) : JRecord :=
  (analyze_with_trace url ts g).1

/-- One organic search result dict; the orchestrator reads it with
    `res.get('link', '')`, `res.get('title', '')`,
    `res.get('snippet', '')` (src lines 258, 264-265), so each field is
    optional with default `''`. -/
structure SearchHit where
  link : Option String
  title : Option String
  snippet : Option String

/-- The outcome of `GoogleSearch(params).get_dict()` (src line 142),
    parametrized by what one hit carries: either the call raises, or it
    returns a dict whose `organic_results` list is `hits`. -/
inductive SearchOutcome (α : Type) where
  | raises
  | ok (hits : List α)

/-- SearchManager.search_drug_approvals (src lines 123-147), paired
    with its call/sleep trace. If `get_dict` raises, the
    `time.sleep(serpapi_delay)` on src line 143 is never reached and
    the `except` branch returns `[]`; if it returns, the sleep runs and
    the organic results are returned. -/
def search_drug_approvals {α : Type} : SearchOutcome α → List α × List CallEvent
  | .raises => ([], [CallEvent.searchCall])
  | .ok hits => (hits, [CallEvent.searchCall, CallEvent.searchSleep])

/-- One search hit together with the behaviour of the external
    collaborators for it: what `requests.get` does for its URL and what
    the Gemini call does for its content, plus the timestamp taken at
    analysis time. -/
structure HitEnv where
  hit : SearchHit
  fetch : FetchOutcome
  gen : GenOutcome
  ts : String

/-- `analysis.update({'search_title': ..., 'search_snippet': ...,
    'search_position': i + 1})` (src lines 263-267): three dict
    assignments in insertion order, `i` the zero-based enumerate
    index. -/
def updateProv (r : JRecord) (hit : SearchHit) (i : Nat) : JRecord :=
  setKey
    (setKey
      (setKey r "search_title" (JVal.str (hit.title.getD "")))
      "search_snippet" (JVal.str (hit.snippet.getD "")))
    "search_position" (JVal.num ((i : Int) + 1))

/-- The `for i, res in enumerate(results)` loop of
    DrugApprovalTracker.track_approvals (src lines 257-268), starting
    at enumerate index `i`: extract the content of the hit's URL; `if
    not content: continue` skips the hit entirely; otherwise analyze
    and append the provenance-updated record. -/
def track_go (cfg : Config) (i : Nat) : List HitEnv → List JRecord
  | [] => []
  | e :: rest =>
    if (extract_content cfg e.fetch).isEmpty then track_go cfg (i + 1) rest
    else
      updateProv (analyze_content (e.hit.link.getD "") e.ts e.gen) e.hit i
        :: track_go cfg (i + 1) rest

/-- DrugApprovalTracker.track_approvals (src lines 254-269): run the
    search, then the per-hit loop over its results from index 0. -/
def track_approvals (cfg : Config) (s : SearchOutcome HitEnv) : List JRecord :=
  track_go cfg 0 (search_drug_approvals s).1

/-! ### Helper lemmas -/

theorem getVal_setKey_self (r : JRecord) (k : String) (v : JVal) :
    getVal k (setKey r k v) = some v := by
  induction r with
  | nil => simp [setKey, getVal]
  | cons p r ih =>
    obtain ⟨k0, v0⟩ := p
    by_cases h : k0 = k
    · subst h
      simp [setKey, getVal]
    · have h3 : ¬k = k0 := fun h2 => h h2.symm
      simp [setKey, getVal, h, h3, ih]

theorem getVal_setKey_ne (r : JRecord) (k k0 : String) (v : JVal) (h : k ≠ k0) :
    getVal k (setKey r k0 v) = getVal k r := by
  induction r with
  | nil => simp [setKey, getVal, h]
  | cons p r ih =>
    obtain ⟨k1, v1⟩ := p
    by_cases h1 : k1 = k0
    · subst h1
      simp [setKey, getVal, fun h2 : k = k1 => h h2]
    · by_cases h2 : k = k1 <;> simp [setKey, getVal, h1, h2, ih]

theorem getVal_updateProv (r : JRecord) (hit : SearchHit) (i : Nat) (k : String)
    (h1 : k ≠ "search_title") (h2 : k ≠ "search_snippet") (h3 : k ≠ "search_position") :
    getVal k (updateProv r hit i) = getVal k r := by
  unfold updateProv
  rw [getVal_setKey_ne _ _ _ _ h3, getVal_setKey_ne _ _ _ _ h2,
    getVal_setKey_ne _ _ _ _ h1]

theorem extract_pdf_content_length (cfg : Config) (p : PdfParse) :
    (extract_pdf_content cfg p).length ≤ cfg.max_text_length := by
  cases p with
  | fail => simp [extract_pdf_content, extract_pdf_with_trace]
  | pages ps =>
    simp only [extract_pdf_content, extract_pdf_with_trace, List.length_take]
    exact min_le_left _ _

theorem extract_html_content_length (cfg : Config) (o : Option (List Char)) :
    (extract_html_content cfg o).length ≤ cfg.max_text_length := by
  cases o with
  | none => simp [extract_html_content]
  | some t =>
    simp only [extract_html_content, List.length_take]
    exact min_le_left _ _

/-- The per-hit loop is the filter-then-map of the index-enumerated hit
    list: hits with empty extracted content are dropped, the others are
    mapped to their analyzed, provenance-updated record, in order. -/
theorem track_go_eq (cfg : Config) (k : Nat) (envs : List HitEnv) :
    track_go cfg k envs
      = ((List.enumFrom k envs).filter
          (fun p => !(extract_content cfg p.2.fetch).isEmpty)).map
          (fun p =>
            updateProv (analyze_content (p.2.hit.link.getD "") p.2.ts p.2.gen) p.2.hit p.1) := by
  induction envs generalizing k with
  | nil => rfl
  | cons e rest ih =>
    by_cases h : (extract_content cfg e.fetch).isEmpty
    · simp [track_go, List.enumFrom, h, ih]
    · simp [track_go, List.enumFrom, h, ih]

/-! ### Concrete collaborator behaviours used by witnesses and
    counterexamples -/

/-- A hit whose fetch raises: the extracted content is empty. -/
def envEmptyHit : HitEnv :=
  { hit := { link := some "u1", title := some "t1", snippet := some "s1" },
    fetch := FetchOutcome.netError,
    gen := GenOutcome.raises,
    ts := "2024-01-01T00:00:00" }

/-- A hit whose fetch yields a small HTML page with a char of text. -/
def envTextHit : HitEnv :=
  { hit := { link := some "u2", title := none, snippet := none },
    fetch := FetchOutcome.ok
      { status := 200, contentType := none, pdfParse := PdfParse.fail,
        soupText := some ['x'] },
    gen := GenOutcome.raises,
    ts := "2024-01-01T00:00:01" }

/-- A hit with text whose generative call parses but echoes a foreign
    source_url. -/
def envEchoHit : HitEnv :=
  { hit := { link := some "u2", title := none, snippet := none },
    fetch := FetchOutcome.ok
      { status := 200, contentType := none, pdfParse := PdfParse.fail,
        soupText := some ['x'] },
    gen := GenOutcome.parsed [("source_url", JVal.str "evil")],
    ts := "t" }

/-- A 404 response. -/
def r404 : HttpResponse :=
  { status := 404, contentType := some ("text/html".toList),
    pdfParse := PdfParse.fail, soupText := some ['x'] }

/-- A 200 PDF response whose body fitz cannot parse. -/
def rPdfBad : HttpResponse :=
  { status := 200, contentType := some ("application/pdf".toList),
    pdfParse := PdfParse.fail, soupText := none }

/-- A 200 response without content-type whose soup step raises. -/
def rSoupBad : HttpResponse :=
  { status := 200, contentType := none, pdfParse := PdfParse.fail,
    soupText := none }

/-- A 200 response with no content-type header. -/
def rNoCT : HttpResponse :=
  { status := 200, contentType := none, pdfParse := PdfParse.pages [['y']],
    soupText := some ['x'] }

/-- A 200 response declaring text/html. -/
def rHtmlCT : HttpResponse :=
  { status := 200, contentType := some ("text/html".toList),
    pdfParse := PdfParse.pages [['y']], soupText := some ['x'] }

/-- A 200 response declaring application/pdf. -/
def rPdfCT : HttpResponse :=
  { status := 200, contentType := some ("application/pdf".toList),
    pdfParse := PdfParse.pages [['y']], soupText := some ['x'] }

/-! ### Claims -/

/-- Claim C1: in the orchestrator loop, a hit whose extracted content is
    empty contributes no record at all (the analyzer is never invoked
    for it), and a hit whose extracted content is non-empty contributes
    exactly one record: its analyzed, provenance-updated record. -/
theorem track_skip_or_contribute (cfg : Config) (i : Nat) (e : HitEnv)
    (rest : List HitEnv) :
    ((extract_content cfg e.fetch).isEmpty = true →
      track_go cfg i (e :: rest) = track_go cfg (i + 1) rest)
    ∧ ((extract_content cfg e.fetch).isEmpty = false →
      track_go cfg i (e :: rest)
        = updateProv (analyze_content (e.hit.link.getD "") e.ts e.gen) e.hit i
            :: track_go cfg (i + 1) rest) := by
  constructor <;> intro h <;> simp [track_go, h]

/-- Claim C1, witness: the skip branch on a failing fetch and the
    one-record branch on a one-char HTML page. -/
theorem track_skip_or_contribute_witness :
    track_go config 0 [envEmptyHit] = track_go config 1 []
    ∧ track_go config 0 [envTextHit]
      = updateProv
          (analyze_content (envTextHit.hit.link.getD "") envTextHit.ts envTextHit.gen)
          envTextHit.hit 0
        :: track_go config 1 [] :=
  ⟨(track_skip_or_contribute config 0 envEmptyHit []).1 (by decide),
   (track_skip_or_contribute config 0 envTextHit []).2 (by decide)⟩

/-- Claim C2, counterexample: on the fallback path the `drug_name`
    field is "Analysis failed", not the sentinel "Not specified", so
    not every field other than source_url and extraction_timestamp
    carries the sentinel. -/
theorem analyze_fallback_drug_name_cx :
    getVal "drug_name" (analyze_content "u" "t" GenOutcome.raises)
      ≠ some (JVal.str "Not specified") := by
  decide

/-- Claim C2, amended: if the generative call raises or its output does
    not parse as JSON, the record has confidence_score 0.0,
    drug_name "Analysis failed", every other field the sentinel
    "Not specified" except source_url (the original URL) and
    extraction_timestamp. -/
theorem analyze_fallback_fields (url ts t : String) :
    analyze_content url ts (GenOutcome.parseFail t)
      = analyze_content url ts GenOutcome.raises
    ∧ getVal "confidence_score" (analyze_content url ts GenOutcome.raises)
      = some (JVal.num 0)
    ∧ getVal "drug_name" (analyze_content url ts GenOutcome.raises)
      = some (JVal.str "Analysis failed")
    ∧ getVal "sponsor_company" (analyze_content url ts GenOutcome.raises)
      = some (JVal.str "Not specified")
    ∧ getVal "approval_date" (analyze_content url ts GenOutcome.raises)
      = some (JVal.str "Not specified")
    ∧ getVal "indication" (analyze_content url ts GenOutcome.raises)
      = some (JVal.str "Not specified")
    ∧ getVal "drug_type" (analyze_content url ts GenOutcome.raises)
      = some (JVal.str "Not specified")
    ∧ getVal "regulatory_action" (analyze_content url ts GenOutcome.raises)
      = some (JVal.str "Not specified")
    ∧ getVal "approval_status" (analyze_content url ts GenOutcome.raises)
      = some (JVal.str "Not specified")
    ∧ getVal "therapeutic_area" (analyze_content url ts GenOutcome.raises)
      = some (JVal.str "Not specified")
    ∧ getVal "source_agency" (analyze_content url ts GenOutcome.raises)
      = some (JVal.str "Not specified")
    ∧ getVal "source_url" (analyze_content url ts GenOutcome.raises)
      = some (JVal.str url)
    ∧ getVal "extraction_timestamp" (analyze_content url ts GenOutcome.raises)
      = some (JVal.str ts) :=
  ⟨rfl, rfl, rfl, rfl, rfl, rfl, rfl, rfl, rfl, rfl, rfl, rfl, rfl⟩

/-- Claim C3, counterexample: a record in the final result set whose
    generative output parsed carries whatever source_url the model
    echoed ("evil"), not the originating hit's URL ("u2") — the success
    path never stamps the original URL. -/
theorem source_url_echo_cx :
    envEchoHit.hit.link = some "u2"
    ∧ (track_approvals config (SearchOutcome.ok [envEchoHit])).map (getVal "source_url")
      = [some (JVal.str "evil")] := by
  decide

/-- Claim C3, amended: on the fallback path (generative call raises or
    output fails to parse) the record's source_url is the original URL;
    on the success path the record's source_url is whatever the parsed
    model output contains (the code adds only extraction_timestamp and
    does not override source_url); the orchestrator's provenance merge
    never modifies source_url. -/
theorem source_url_stamp (url ts t : String) (obj r : JRecord)
    (hit : SearchHit) (i : Nat) :
    getVal "source_url" (analyze_content url ts GenOutcome.raises)
      = some (JVal.str url)
    ∧ getVal "source_url" (analyze_content url ts (GenOutcome.parseFail t))
      = some (JVal.str url)
    ∧ getVal "source_url" (analyze_content url ts (GenOutcome.parsed obj))
      = getVal "source_url" obj
    ∧ getVal "source_url" (updateProv r hit i) = getVal "source_url" r := by
  refine ⟨rfl, rfl, ?_, ?_⟩
  · exact getVal_setKey_ne obj "source_url" "extraction_timestamp" _ (by decide)
  · exact getVal_updateProv r hit i "source_url" (by decide) (by decide) (by decide)

/-- Claim C4: the content extractor is a total function of the fetch
    outcome, and every failure degrades to the empty string: a raised
    fetch error, an error status (raise_for_status), a fitz parse
    failure on the PDF branch, and a soup failure on the HTML branch
    all yield "". -/
theorem extract_content_failures (cfg : Config) (r : HttpResponse) :
    extract_content cfg FetchOutcome.netError = []
    ∧ (400 ≤ r.status ∧ r.status < 600 →
        extract_content cfg (FetchOutcome.ok r) = [])
    ∧ (r.pdfParse = PdfParse.fail →
        hasSub pdfPat (r.contentType.getD []) = true →
        ¬(400 ≤ r.status ∧ r.status < 600) →
        extract_content cfg (FetchOutcome.ok r) = [])
    ∧ (r.soupText = none →
        hasSub pdfPat (r.contentType.getD []) = false →
        ¬(400 ≤ r.status ∧ r.status < 600) →
        extract_content cfg (FetchOutcome.ok r) = []) := by
  refine ⟨rfl, ?_, ?_, ?_⟩
  · intro h
    simp [extract_content, h]
  · intro hp hct hs
    show (if _ then _ else if _ then _ else _) = _
    rw [if_neg hs, if_pos hct, hp]
    rfl
  · intro hs0 hct hs
    show (if _ then _ else if _ then _ else _) = _
    rw [if_neg hs, if_neg (by simp [hct]), hs0]
    rfl

/-- Claim C4, witness: a 404 page, a corrupt PDF and a failing soup
    step each extract to the empty string. -/
theorem extract_content_failures_witness :
    extract_content config (FetchOutcome.ok r404) = []
    ∧ extract_content config (FetchOutcome.ok rPdfBad) = []
    ∧ extract_content config (FetchOutcome.ok rSoupBad) = [] :=
  ⟨(extract_content_failures config r404).2.1 (by decide),
   (extract_content_failures config rPdfBad).2.2.1 (by decide) (by decide) (by decide),
   (extract_content_failures config rSoupBad).2.2.2 (by decide) (by decide) (by decide)⟩

/-- Claim C5: whatever the fetch outcome (any body, any size, PDF or
    HTML branch, any failure), the extracted text never exceeds
    max_text_length characters. -/
theorem extract_content_length (cfg : Config) (f : FetchOutcome) :
    (extract_content cfg f).length ≤ cfg.max_text_length := by
  cases f with
  | netError => simp [extract_content]
  | ok r =>
    by_cases h1 : 400 ≤ r.status ∧ r.status < 600
    · simp [extract_content, h1]
    · by_cases h2 : hasSub pdfPat (r.contentType.getD []) = true
      · simpa [extract_content, h1, h2] using extract_pdf_content_length cfg r.pdfParse
      · simpa [extract_content, h1, h2] using extract_html_content_length cfg r.soupText

/-- Claim C6, counterexample: when the model returns the valid JSON
    object with no keys, the resulting record omits drug_name (and
    every other schema key except extraction_timestamp) — the success
    path performs no schema validation. -/
theorem schema_keys_cx :
    getVal "drug_name" (analyze_content "u" "t" (GenOutcome.parsed [])) = none := by
  decide

/-- The fixed required schema keys of an ApprovalRecord. -/
def requiredKeys : List String :=
  ["drug_name", "sponsor_company", "approval_date", "indication", "drug_type",
   "regulatory_action", "approval_status", "therapeutic_area", "source_agency",
   "source_url", "confidence_score", "extraction_timestamp"]

/-- Claim C6, amended: the fallback record contains every required
    schema key, but a success-path record contains exactly the keys of
    the parsed model output plus extraction_timestamp: any other key is
    present in the record iff the model emitted it. -/
theorem schema_keys_amended (url ts : String) (obj : JRecord) (k : String)
    (h : k ≠ "extraction_timestamp") :
    (requiredKeys.all fun k0 =>
      (getVal k0 (analyze_content url ts GenOutcome.raises)).isSome) = true
    ∧ getVal "extraction_timestamp" (analyze_content url ts (GenOutcome.parsed obj))
      = some (JVal.str ts)
    ∧ getVal k (analyze_content url ts (GenOutcome.parsed obj)) = getVal k obj :=
  ⟨rfl, getVal_setKey_self obj _ _, getVal_setKey_ne obj _ _ _ h⟩

/-- Claim C6, witness: the empty parsed object yields a record whose
    drug_name lookup agrees with the empty object (i.e. is absent). -/
theorem schema_keys_amended_witness :
    (requiredKeys.all fun k0 =>
      (getVal k0 (analyze_content "u" "t" GenOutcome.raises)).isSome) = true
    ∧ getVal "extraction_timestamp" (analyze_content "u" "t" (GenOutcome.parsed []))
      = some (JVal.str "t")
    ∧ getVal "drug_name" (analyze_content "u" "t" (GenOutcome.parsed []))
      = getVal "drug_name" [] :=
  schema_keys_amended "u" "t" [] "drug_name" (by decide)

/-- Claim C7, counterexample: when the fitz parse fails, the temp-file
    trace of the PDF extraction step contains no unlink — the temporary
    on-disk copy survives the call. -/
theorem pdf_tmpfile_cx :
    FileEvent.unlink ∉ (extract_pdf_with_trace config PdfParse.fail).2 := by
  decide

/-- Claim C7, amended: the temporary file is created and then removed
    when the fitz parse succeeds, but when the parse raises the unlink
    (placed after the parse, inside the try) is skipped and the file is
    created without ever being removed. -/
theorem pdf_tmpfile_amended (cfg : Config) (ps : List (List Char)) :
    (extract_pdf_with_trace cfg (PdfParse.pages ps)).2
      = [FileEvent.create, FileEvent.unlink]
    ∧ (extract_pdf_with_trace cfg PdfParse.fail).2 = [FileEvent.create] :=
  ⟨rfl, rfl⟩

/-- Claim C8, counterexample: when the search call raises, no search
    sleep occurs, and when the generative call raises, no Gemini sleep
    occurs — the pacing delay does not elapse on the raising path. -/
theorem pacing_sleep_cx :
    CallEvent.searchSleep
        ∉ (search_drug_approvals (SearchOutcome.raises : SearchOutcome HitEnv)).2
    ∧ CallEvent.genSleep ∉ (analyze_with_trace "u" "t" GenOutcome.raises).2 := by
  decide

/-- Claim C8, amended: the pacing sleep elapses whenever the paced call
    returns normally — including when the generative output then fails
    to parse — but is skipped when the search call or the generative
    call raises (the sleep sits after the call inside the try block). -/
theorem pacing_sleep_amended (url ts t : String) (obj : JRecord)
    (hits : List HitEnv) :
    CallEvent.searchSleep ∈ (search_drug_approvals (SearchOutcome.ok hits)).2
    ∧ CallEvent.searchSleep
        ∉ (search_drug_approvals (SearchOutcome.raises : SearchOutcome HitEnv)).2
    ∧ CallEvent.genSleep ∈ (analyze_with_trace url ts (GenOutcome.parseFail t)).2
    ∧ CallEvent.genSleep ∈ (analyze_with_trace url ts (GenOutcome.parsed obj)).2
    ∧ CallEvent.genSleep ∉ (analyze_with_trace url ts GenOutcome.raises).2 := by
  refine ⟨?_, ?_, ?_, ?_, ?_⟩ <;> simp [search_drug_approvals, analyze_with_trace]

/-- Claim C9: for a response that passes raise_for_status, the PDF
    branch is taken exactly when the declared content-type contains
    'pdf'; an absent content-type header (and any non-PDF one) routes
    to the HTML branch. -/
theorem content_type_dispatch (cfg : Config) (r : HttpResponse)
    (hst : ¬(400 ≤ r.status ∧ r.status < 600)) :
    (r.contentType = none →
      extract_content cfg (FetchOutcome.ok r) = extract_html_content cfg r.soupText)
    ∧ (hasSub pdfPat (r.contentType.getD []) = false →
      extract_content cfg (FetchOutcome.ok r) = extract_html_content cfg r.soupText)
    ∧ (hasSub pdfPat (r.contentType.getD []) = true →
      extract_content cfg (FetchOutcome.ok r) = extract_pdf_content cfg r.pdfParse) := by
  refine ⟨?_, ?_, ?_⟩ <;> intro h
  · show (if _ then _ else if _ then _ else _) = _
    rw [if_neg hst, if_neg (by simp [h, hasSub, leadsWith, pdfPat])]
  · show (if _ then _ else if _ then _ else _) = _
    rw [if_neg hst, if_neg (by simp [h])]
  · show (if _ then _ else if _ then _ else _) = _
    rw [if_neg hst, if_pos h]

/-- Claim C9, witness: a missing content-type header and a text/html
    header both take the HTML branch; an application/pdf header takes
    the PDF branch. -/
theorem content_type_dispatch_witness :
    extract_content config (FetchOutcome.ok rNoCT)
      = extract_html_content config rNoCT.soupText
    ∧ extract_content config (FetchOutcome.ok rHtmlCT)
      = extract_html_content config rHtmlCT.soupText
    ∧ extract_content config (FetchOutcome.ok rPdfCT)
      = extract_pdf_content config rPdfCT.pdfParse :=
  ⟨(content_type_dispatch config rNoCT (by decide)).1 (by decide),
   (content_type_dispatch config rHtmlCT (by decide)).2.1 (by decide),
   (content_type_dispatch config rPdfCT (by decide)).2.2 (by decide)⟩

/-- Claim C10: the output list is the in-order filter-map of the
    zero-based enumeration of the full search result list (hits with
    empty content dropped, search order preserved), and the merged
    search_position field of a record built at enumerate index i is
    exactly i + 1 — the hit's original 1-based rank, also for hits that
    follow skipped ones. -/
theorem search_position_rank (cfg : Config) (envs : List HitEnv)
    (r : JRecord) (hit : SearchHit) (i : Nat) :
    track_approvals cfg (SearchOutcome.ok envs)
      = ((List.enumFrom 0 envs).filter
          (fun p => !(extract_content cfg p.2.fetch).isEmpty)).map
          (fun p =>
            updateProv (analyze_content (p.2.hit.link.getD "") p.2.ts p.2.gen) p.2.hit p.1)
    ∧ getVal "search_position" (updateProv r hit i) = some (JVal.num ((i : Int) + 1)) :=
  ⟨track_go_eq cfg 0 envs, getVal_setKey_self _ _ _⟩

end DAT
